import Mathlib

/-!
Shallow embedding of the record-reconciliation core of the
terraform-provider-technitium repository (with its closely related
godaddy-dns variant living in the same tree), together with proofs about
it.

Embedded source locations:
* `internal/model/model.go` — `DNSRecord` and `DNSRecord.SameKey`;
* `internal/provider/record.go` — `apiRecsToKeep`, the multi-valued
  branches of `Update` and `Delete`, `errRecordGone`;
* the record-import parsing of `RecordResource.ImportState`
  (unnamed part_007) — generic `zone:name:TYPE:value` splitting and the
  per-type value handling (MX).

Machine strings are Lean `String`s; Go integer fields are `Nat` (none of
the embedded code performs arithmetic on them, only equality tests).
The `DNSApiClient` collaborator is modelled by passing the result of
`GetRecords` in as an `Except String (List DNSRecord)` value and by
recording the mutating calls (`DelRecords`, `SetRecords`) the operation
would issue as an explicit list.
-/

/-- A DNS resource record, after `internal/model/model.go`'s `DNSRecord`.
Fields not read by any embedded function (logging-only or marshalling-only
fields such as `Comments`, `ExpiryTTL`, `Ptr`, …) are omitted; every field
read by `SameKey` or by the reconciliation code is present.  `Name` and
`Data` are the godaddy-variant fields used by `internal/provider/record.go`
(`tf2model`, `DNSUpdateRecord` literals); both variants share one record
type here.  Go's zero values are the field defaults. -/
structure DNSRecord where
  type : String := ""
  Domain : String := ""
  Name : String := ""
  Data : String := ""
  TTL : Nat := 0
  IPAddress : String := ""
  NameServer : String := ""
  CName : String := ""
  PtrName : String := ""
  Exchange : String := ""
  Preference : Nat := 0
  Text : String := ""
  Priority : Nat := 0
  Weight : Nat := 0
  Port : Nat := 0
  Target : String := ""
  NaptrFlags : String := ""
  NaptrServices : String := ""
  NaptrRegexp : String := ""
  NaptrReplacement : String := ""
  DName : String := ""
  KeyTag : Nat := 0
  Algorithm : String := ""
  DigestType : String := ""
  Digest : String := ""
  SshfpAlgorithm : String := ""
  SshfpFingerprintType : String := ""
  SshfpFingerprint : String := ""
  TlsaCertificateUsage : String := ""
  TlsaSelector : String := ""
  TlsaMatchingType : String := ""
  TlsaCertificateAssociationData : String := ""
  SvcTargetName : String := ""
  SvcParams : String := ""
  UriPriority : Nat := 0
  UriWeight : Nat := 0
  Uri : String := ""
  Flags : String := ""
  Tag : String := ""
  Value : String := ""
  AName : String := ""
  Forwarder : String := ""
  AppName : String := ""
  ClassPath : String := ""
  deriving DecidableEq, Repr

/-- The effective address compared by `SameKey` for A/AAAA records: the
`IPAddress` field, falling back to `Value` when `IPAddress` is empty.
This is the `ip1`/`ip2` computation inside `model.go`'s `SameKey`. -/
def DNSRecord.effAddr (r : DNSRecord) : String :=
  if r.IPAddress == "" then r.Value else r.IPAddress

/-- `DNSRecord.SameKey` from `internal/model/model.go` (lines 184-235):
records of different type or domain never match; within equal type+domain
the type-specific key tuple decides; unknown types never match. -/
def DNSRecord.SameKey (r r1 : DNSRecord) : Bool :=
  if r.type != r1.type || r.Domain != r1.Domain then
    false
  else
    match r.type with
    | "A" | "AAAA" =>
      let ip1 := if r.IPAddress == "" then r.Value else r.IPAddress
      let ip2 := if r1.IPAddress == "" then r1.Value else r1.IPAddress
      ip1 == ip2 && ip1 != ""
    | "CNAME" | "ANAME" | "DNAME" => true
    | "SRV" => r.Port == r1.Port && r.Target == r1.Target
    | "MX" => r.Exchange == r1.Exchange
    | "TXT" => r.Text == r1.Text
    | "PTR" => r.PtrName == r1.PtrName
    | "NS" => r.NameServer == r1.NameServer
    | "NAPTR" =>
      r.NaptrFlags == r1.NaptrFlags && r.NaptrServices == r1.NaptrServices &&
      r.NaptrRegexp == r1.NaptrRegexp && r.NaptrReplacement == r1.NaptrReplacement
    | "DS" =>
      r.KeyTag == r1.KeyTag && r.Algorithm == r1.Algorithm &&
      r.DigestType == r1.DigestType && r.Digest == r1.Digest
    | "SSHFP" =>
      r.SshfpAlgorithm == r1.SshfpAlgorithm &&
      r.SshfpFingerprintType == r1.SshfpFingerprintType &&
      r.SshfpFingerprint == r1.SshfpFingerprint
    | "TLSA" =>
      r.TlsaCertificateUsage == r1.TlsaCertificateUsage &&
      r.TlsaSelector == r1.TlsaSelector &&
      r.TlsaMatchingType == r1.TlsaMatchingType &&
      r.TlsaCertificateAssociationData == r1.TlsaCertificateAssociationData
    | "SVCB" | "HTTPS" => r.SvcTargetName == r1.SvcTargetName && r.SvcParams == r1.SvcParams
    | "URI" => r.UriPriority == r1.UriPriority && r.UriWeight == r1.UriWeight && r.Uri == r1.Uri
    | "CAA" => r.Flags == r1.Flags && r.Tag == r1.Tag && r.Value == r1.Value
    | "FWD" => r.Forwarder == r1.Forwarder
    | "APP" => r.AppName == r1.AppName && r.ClassPath == r1.ClassPath
    | _ => false

example : DNSRecord.SameKey
    { type := "A", Domain := "example.com", IPAddress := "1.2.3.4" }
    { type := "A", Domain := "example.com", Value := "1.2.3.4" } = true := by decide

example : DNSRecord.SameKey
    { type := "BOGUS", Domain := "example.com" }
    { type := "BOGUS", Domain := "example.com" } = false := by decide

/-- Modelled from the spec: `DNSRecordType.IsSingleValue` is called by
`internal/provider/record.go` but its definition is not among the provided
sources.  The spec defines the single-valued types as exactly CNAME, ANAME
and DNAME (at most one record per owner name); all other types are
multi-valued. -/
def IsSingleValue (t : String) : Bool :=
  t == "CNAME" || t == "ANAME" || t == "DNAME"

/-- Modelled from the spec: `model.DNSUpdateRecord`, the reduced record
representation (no type/name) used when replacing a multi-valued record
set.  Its definition is not among the provided sources; the fields are the
ones every `DNSUpdateRecord` literal in `internal/provider/record.go`
populates: data, TTL and priority. -/
structure DNSUpdateRecord where
  Data : String := ""
  TTL : Nat := 0
  Priority : Nat := 0
  deriving DecidableEq, Repr

/-- Modelled from the spec: `DNSRecord.ToUpdate`, the conversion from a
full record to the reduced update form, called by `apiRecsToKeep` but not
among the provided sources.  Per the spec it keeps the record's data and
the type-specific extra fields (TTL, priority) and drops type/name. -/
def DNSRecord.ToUpdate (r : DNSRecord) : DNSUpdateRecord :=
  { Data := r.Data, TTL := r.TTL, Priority := r.Priority }

/-- The error outcomes of `apiRecsToKeep`: the distinguished
`errRecordGone` sentinel of `internal/provider/record.go` line 438, or a
generic wrapped client error. -/
inductive KeepErr where
  | recordGone
  | client (msg : String)
  deriving DecidableEq, Repr

/-- The loop body of `apiRecsToKeep` (record.go lines 463-473): walk the
records returned by the API; a record matching the state record by key is
counted, any other record is appended to the keep list in reduced form. -/
def keepLoop (state : DNSRecord) :
    List DNSRecord → List DNSUpdateRecord → Nat → List DNSUpdateRecord × Nat
  | [], res, matchesWithState => (res, matchesWithState)
  | rec :: rest, res, matchesWithState =>
    if rec.SameKey state then
      keepLoop state rest res (matchesWithState + 1)
    else
      keepLoop state rest (res ++ [rec.ToUpdate]) matchesWithState

/-- `RecordResource.apiRecsToKeep` (record.go lines 444-483).  The
`GetRecords` API call is modelled by its result, passed in as an `Except`:
a client failure yields the wrapped error and an empty list; otherwise the
loop runs and a zero match count yields the `errRecordGone` sentinel
together with the computed keep list, exactly as the Go code returns
`res, errRecordGone`. -/
def apiRecsToKeep (state : DNSRecord)
    (getRecords : Except String (List DNSRecord)) :
    List DNSUpdateRecord × Option KeepErr :=
  match getRecords with
  | .error e => ([], some (KeepErr.client ("Client error: query failed: " ++ e)))
  | .ok apiAllRecs =>
    let p := keepLoop state apiAllRecs [] 0
    if p.2 == 0 then (p.1, some KeepErr.recordGone) else (p.1, none)

/-- A mutating API call issued by an operation, with the arguments the Go
code passes: `DelRecords(ctx, domain, type, name)` or
`SetRecords(ctx, domain, type, name, records)`. -/
inductive ApiCall where
  | delRecords (domain rtype name : String)
  | setRecords (domain rtype name : String) (records : List DNSUpdateRecord)
  deriving DecidableEq, Repr

/-- The multi-valued branch of `RecordResource.Delete` (record.go lines
381-410), returning the mutating API calls issued and the diagnostic
error added, if any.  On `errRecordGone` the operation returns silently;
on a client error it adds a diagnostic; otherwise an empty keep list
triggers a whole-set `DelRecords` and a non-empty one a `SetRecords`
carrying the keep list. -/
def deleteMulti (apiDomain : String) (state : DNSRecord)
    (getRecords : Except String (List DNSRecord)) :
    List ApiCall × Option String :=
  let p := apiRecsToKeep state getRecords
  match p.2 with
  | some KeepErr.recordGone => ([], none)
  | some (KeepErr.client msg) =>
    ([], some ("Getting DNS records to keep failed: " ++ msg))
  | none =>
    if p.1.isEmpty then
      ([ApiCall.delRecords apiDomain state.type state.Name], none)
    else
      ([ApiCall.setRecords apiDomain state.type state.Name p.1], none)

/-- The multi-valued branch of `RecordResource.Update` (record.go lines
303-346), returning the mutating API calls issued and the diagnostic
error added, if any.  A client error from `apiRecsToKeep` aborts; the
`errRecordGone` sentinel only sets `oldGone`.  The planned record's
reduced form is appended unless already present; when the old record is
gone and the new one already present, no `SetRecords` call is made. -/
def updateMulti (apiDomain : String) (plan state : DNSRecord)
    (getRecords : Except String (List DNSRecord)) :
    List ApiCall × Option String :=
  let p := apiRecsToKeep state getRecords
  match p.2 with
  | some (KeepErr.client msg) =>
    ([], some ("Getting DNS records to keep failed: " ++ msg))
  | _ =>
    let oldGone : Bool := decide (p.2 = some KeepErr.recordGone)
    let ourRec : DNSUpdateRecord :=
      { Data := plan.Data, TTL := plan.TTL, Priority := plan.Priority }
    let newPresent : Bool := decide (ourRec ∈ p.1)
    let apiUpdateRecs := if newPresent then p.1 else p.1 ++ [ourRec]
    if oldGone && newPresent then
      ([], none)
    else
      ([ApiCall.setRecords apiDomain plan.type plan.Name apiUpdateRecs], none)

/-- The import separator constant `IMPORT_SEP` of the record resource. -/
def IMPORT_SEP : String := ":"

/-- A diagnostic added via `resp.Diagnostics.AddError(summary, detail)`. -/
structure Diag where
  summary : String
  detail : String
  deriving DecidableEq, Repr

/-- The four fields the generic import parser extracts from an import ID
(the `recordImportParts` structure of the record-import unit tests). -/
structure recordImportParts where
  zone : String
  name : String
  recordType : String
  value : String
  deriving DecidableEq, Repr

/-- Character-level worker for Go's `strings.Split` with a one-character
separator: `cur` accumulates the current field in reverse. -/
def splitCharAux (sep : Char) : List Char → List Char → List (List Char)
  | [], cur => [cur.reverse]
  | x :: xs, cur =>
    if x == sep then
      cur.reverse :: splitCharAux sep xs []
    else
      splitCharAux sep xs (x :: cur)

/-- Go's `strings.Split(s, sep)` for a one-character separator (both
separators the import code uses, `":"` and `" "`, are one character). -/
def goSplit (sep : Char) (s : String) : List String :=
  (splitCharAux sep s.toList []).map String.mk

/-- Rejoin fields with the separator, at character level (used to model
the un-split remainder of `strings.SplitN`). -/
def joinChar (sep : Char) : List (List Char) → List Char
  | [] => []
  | [x] => x
  | x :: rest => x ++ sep :: joinChar sep rest

/-- Go's `strings.SplitN(s, sep, 2)` for a one-character separator:
split at the first occurrence only; the second field keeps any further
separators intact. -/
def goSplitN2 (sep : Char) (s : String) : List String :=
  match splitCharAux sep s.toList [] with
  | [] => []
  | [x] => [String.mk x]
  | x :: rest => [String.mk x, String.mk (joinChar sep rest)]

/-- The generic import-ID parsing of `RecordResource.ImportState`
(unnamed part_007, lines 558-574): `strings.Split(id, IMPORT_SEP)` —
an unbounded split on every colon — followed by the `len(parts) != 4`
check; the Go error detail wraps the format in single quotes, elided
here.  There is no emptiness check on any part. -/
def importStateParts (id : String) : Except Diag recordImportParts :=
  match goSplit ':' id with
  | [z, n, t, v] => .ok { zone := z, name := n, recordType := t, value := v }
  | _ => .error { summary := "Invalid import ID",
                  detail := "Import ID must be in format zone:name:TYPE:value, got: " ++ id }

/-- Digit run of `strconv.ParseInt`'s base-10 integer syntax: `none`
unless every character is a decimal digit (and the run is non-empty). -/
def parseDigits : List Char → Option Nat → Option Nat
  | [], acc => acc
  | c :: rest, acc =>
    if c.isDigit then
      match acc with
      | none => parseDigits rest (some (c.toNat - 48))
      | some n => parseDigits rest (some (n * 10 + (c.toNat - 48)))
    else
      none

/-- Go's `strconv.ParseInt(s, 10, 64)`: an optional sign followed by a
non-empty digit run, rejected when the value overflows int64. -/
def parseInt64 (s : String) : Option Int :=
  match s.toList with
  | '+' :: rest =>
    match parseDigits rest none with
    | some n => if n ≤ 9223372036854775807 then some (Int.ofNat n) else none
    | none => none
  | '-' :: rest =>
    match parseDigits rest none with
    | some n => if n ≤ 9223372036854775808 then some (-(Int.ofNat n)) else none
    | none => none
  | chars =>
    match parseDigits chars none with
    | some n => if n ≤ 9223372036854775807 then some (Int.ofNat n) else none
    | none => none

/-- What the MX arm of `RecordResource.ImportState` (unnamed part_007,
lines 594-602) ends up setting from the import value. -/
inductive MXImportOutcome where
  | nothingSet
  | exchangeOnly (exchange : String)
  | prefAndExchange (preference : Int) (exchange : String)
  deriving DecidableEq, Repr

/-- The MX arm of `RecordResource.ImportState` (unnamed part_007, lines
594-602): `strings.SplitN(value, " ", 2)` — a split on the first SPACE —
then, only when two parts result, the preference is set if it parses as
an integer (a parse failure is silently ignored) and the exchange is set
unconditionally.  When the split does not yield two parts, nothing is
set and no error is reported. -/
def importMXValue (value : String) : MXImportOutcome :=
  match goSplitN2 ' ' value with
  | [p, e] =>
    match parseInt64 p with
    | some pref => .prefAndExchange pref e
    | none => .exchangeOnly e
  | _ => .nothingSet

example : importStateParts "example.com:@:A:1.2.3.4" =
    .ok { zone := "example.com", name := "@", recordType := "A", value := "1.2.3.4" } := rfl

example : importMXValue "10 mail.example.com" =
    MXImportOutcome.prefAndExchange 10 "mail.example.com" := rfl

/-- Closed form of the `apiRecsToKeep` loop: the keep list is the input
accumulator followed by the reduced forms of exactly the non-matching
records, in order, and the match count grows by the number of matching
records. -/
theorem keepLoop_spec (state : DNSRecord) (l : List DNSRecord) :
    ∀ (res : List DNSUpdateRecord) (matchesWithState : Nat),
      keepLoop state l res matchesWithState =
        (res ++ (l.filter (fun rec => !rec.SameKey state)).map DNSRecord.ToUpdate,
         matchesWithState + l.countP (fun rec => rec.SameKey state)) := by
  induction l with
  | nil => intro res m; simp [keepLoop]
  | cons r rest ih =>
    intro res m
    by_cases h : r.SameKey state
    · simp [keepLoop, h, ih, List.filter_cons, List.countP_cons, Prod.mk.injEq]
      omega
    · simp [keepLoop, h, ih, List.filter_cons, List.countP_cons, Prod.mk.injEq,
        List.append_assoc]

/-- C1: for every state record of a multi-valued type and every list of
live records returned by `GetRecords` for its type+name, the keep list
computed by `apiRecsToKeep` is exactly the list of live records for which
`SameKey(live, state)` is false, each converted to the reduced update
form and kept in order — and hence contains no entry arising from a
record for which `SameKey(live, state)` holds. -/
theorem C1_apiRecsToKeep_keeps_exactly_nonmatching
    (state : DNSRecord) (live : List DNSRecord)
    (hmulti : IsSingleValue state.type = false) :
    (apiRecsToKeep state (Except.ok live)).1 =
      (live.filter (fun rec => !rec.SameKey state)).map DNSRecord.ToUpdate := by
  simp only [apiRecsToKeep, keepLoop_spec, List.nil_append, Nat.zero_add]
  split <;> rfl

theorem C1_witness :
    IsSingleValue ({ type := "TXT", Domain := "example.com", Text := "keep-me" } : DNSRecord).type
        = false ∧
    (apiRecsToKeep { type := "TXT", Domain := "example.com", Text := "keep-me" }
        (Except.ok
          [{ type := "TXT", Domain := "example.com", Text := "other", Data := "other", TTL := 600 },
           { type := "TXT", Domain := "example.com", Text := "keep-me", Data := "keep-me", TTL := 3600 }])).1 =
      ([({ type := "TXT", Domain := "example.com", Text := "other", Data := "other", TTL := 600 } : DNSRecord),
        { type := "TXT", Domain := "example.com", Text := "keep-me", Data := "keep-me", TTL := 3600 }].filter
          (fun rec => !rec.SameKey { type := "TXT", Domain := "example.com", Text := "keep-me" })).map
        DNSRecord.ToUpdate :=
  ⟨by decide,
   C1_apiRecsToKeep_keeps_exactly_nonmatching
     { type := "TXT", Domain := "example.com", Text := "keep-me" }
     [{ type := "TXT", Domain := "example.com", Text := "other", Data := "other", TTL := 600 },
      { type := "TXT", Domain := "example.com", Text := "keep-me", Data := "keep-me", TTL := 3600 }]
     (by decide)⟩

/-- C2: when zero live records match the state record's key,
`apiRecsToKeep` returns the distinguished `errRecordGone` sentinel — a
value distinct from every generic client error — and the multi-valued
`Delete` branch returns without issuing any mutating API call (no
`DelRecords` and no `SetRecords`) and without a diagnostic. -/
theorem C2_gone_sentinel_and_delete_noop
    (apiDomain : String) (state : DNSRecord) (live : List DNSRecord)
    (hmulti : IsSingleValue state.type = false)
    (hnone : ∀ rec ∈ live, rec.SameKey state = false) :
    (apiRecsToKeep state (Except.ok live)).2 = some KeepErr.recordGone ∧
    (∀ msg, (apiRecsToKeep state (Except.ok live)).2 ≠ some (KeepErr.client msg)) ∧
    deleteMulti apiDomain state (Except.ok live) = ([], none) := by
  have hcount : live.countP (fun rec => rec.SameKey state) = 0 := by
    rw [List.countP_eq_zero]
    intro a ha
    simp [hnone a ha]
  have h2 : (apiRecsToKeep state (Except.ok live)).2 = some KeepErr.recordGone := by
    simp [apiRecsToKeep, keepLoop_spec, hcount]
  refine ⟨h2, ?_, ?_⟩
  · intro msg h
    rw [h2] at h
    exact KeepErr.noConfusion (Option.some.inj h)
  · simp only [deleteMulti, h2]

theorem C2_witness :
    IsSingleValue ({ type := "TXT", Domain := "example.com", Text := "gone" } : DNSRecord).type
        = false ∧
    (∀ rec ∈ [({ type := "TXT", Domain := "example.com", Text := "other" } : DNSRecord)],
      rec.SameKey { type := "TXT", Domain := "example.com", Text := "gone" } = false) ∧
    ((apiRecsToKeep { type := "TXT", Domain := "example.com", Text := "gone" }
        (Except.ok [{ type := "TXT", Domain := "example.com", Text := "other" }])).2 =
          some KeepErr.recordGone ∧
     (∀ msg, (apiRecsToKeep { type := "TXT", Domain := "example.com", Text := "gone" }
        (Except.ok [{ type := "TXT", Domain := "example.com", Text := "other" }])).2 ≠
          some (KeepErr.client msg)) ∧
     deleteMulti "example.com" { type := "TXT", Domain := "example.com", Text := "gone" }
        (Except.ok [{ type := "TXT", Domain := "example.com", Text := "other" }]) = ([], none)) :=
  ⟨by decide, by decide,
   C2_gone_sentinel_and_delete_noop "example.com"
     { type := "TXT", Domain := "example.com", Text := "gone" }
     [{ type := "TXT", Domain := "example.com", Text := "other" }]
     (by decide) (by decide)⟩

/-- C3: in a multi-valued `Update`, when `apiRecsToKeep` reports the old
record already gone (`errRecordGone`) and the planned record's reduced
update form is already present among the returned keep-list entries, the
operation issues no mutating API call (`SetRecords` is not invoked) and
completes without a diagnostic. -/
theorem C3_update_noop_when_old_gone_and_new_present
    (apiDomain : String) (plan state : DNSRecord) (live : List DNSRecord)
    (hmulti : IsSingleValue plan.type = false)
    (hgone : (apiRecsToKeep state (Except.ok live)).2 = some KeepErr.recordGone)
    (hpresent : ({ Data := plan.Data, TTL := plan.TTL, Priority := plan.Priority } : DNSUpdateRecord)
        ∈ (apiRecsToKeep state (Except.ok live)).1) :
    updateMulti apiDomain plan state (Except.ok live) = ([], none) := by
  simp [updateMulti, hgone, hpresent]

theorem C3_witness :
    IsSingleValue ({ type := "TXT", Domain := "example.com", Text := "new", Data := "d1", TTL := 600 } : DNSRecord).type = false ∧
    (apiRecsToKeep { type := "TXT", Domain := "example.com", Text := "old" }
        (Except.ok [{ type := "TXT", Domain := "example.com", Text := "new", Data := "d1", TTL := 600 }])).2 =
      some KeepErr.recordGone ∧
    ({ Data := "d1", TTL := 600, Priority := 0 } : DNSUpdateRecord) ∈
      (apiRecsToKeep { type := "TXT", Domain := "example.com", Text := "old" }
        (Except.ok [{ type := "TXT", Domain := "example.com", Text := "new", Data := "d1", TTL := 600 }])).1 ∧
    updateMulti "example.com"
        { type := "TXT", Domain := "example.com", Text := "new", Data := "d1", TTL := 600 }
        { type := "TXT", Domain := "example.com", Text := "old" }
        (Except.ok [{ type := "TXT", Domain := "example.com", Text := "new", Data := "d1", TTL := 600 }]) =
      ([], none) :=
  ⟨by decide, by decide, by decide,
   C3_update_noop_when_old_gone_and_new_present "example.com"
     { type := "TXT", Domain := "example.com", Text := "new", Data := "d1", TTL := 600 }
     { type := "TXT", Domain := "example.com", Text := "old" }
     [{ type := "TXT", Domain := "example.com", Text := "new", Data := "d1", TTL := 600 }]
     (by decide) (by decide) (by decide)⟩

/-- C8: in a multi-valued `Delete` where the old record is still present
among the live records, an empty keep list leads to exactly one whole-set
`DelRecords` call — never a `SetRecords` call with a zero-length record
list — and a non-empty keep list leads to exactly one `SetRecords` call
carrying exactly the keep list. -/
theorem C8_delete_wholeset_or_replace
    (apiDomain : String) (state : DNSRecord) (live : List DNSRecord)
    (hmulti : IsSingleValue state.type = false)
    (hpresent : ∃ rec ∈ live, rec.SameKey state = true) :
    ((apiRecsToKeep state (Except.ok live)).1 = [] →
      (deleteMulti apiDomain state (Except.ok live)).1 =
        [ApiCall.delRecords apiDomain state.type state.Name]) ∧
    ((apiRecsToKeep state (Except.ok live)).1 ≠ [] →
      (deleteMulti apiDomain state (Except.ok live)).1 =
        [ApiCall.setRecords apiDomain state.type state.Name
          (apiRecsToKeep state (Except.ok live)).1]) ∧
    (∀ d t n recs,
      ApiCall.setRecords d t n recs ∈ (deleteMulti apiDomain state (Except.ok live)).1 →
      recs ≠ []) := by
  have hcount : live.countP (fun rec => rec.SameKey state) ≠ 0 := by
    obtain ⟨rec, hmem, hkey⟩ := hpresent
    have : 0 < live.countP (fun rec => rec.SameKey state) :=
      List.countP_pos.mpr ⟨rec, hmem, hkey⟩
    omega
  have h2 : (apiRecsToKeep state (Except.ok live)).2 = none := by
    simp [apiRecsToKeep, keepLoop_spec, hcount]
  by_cases hk : (apiRecsToKeep state (Except.ok live)).1 = []
  · refine ⟨fun _ => ?_, fun hne => absurd hk hne, ?_⟩
    · simp [deleteMulti, h2, hk]
    · intro d t n recs hmem
      simp [deleteMulti, h2, hk] at hmem
  · refine ⟨fun heq => absurd heq hk, fun _ => ?_, ?_⟩
    · simp [deleteMulti, h2, List.isEmpty_iff, hk]
    · intro d t n recs hmem
      simp [deleteMulti, h2, List.isEmpty_iff, hk] at hmem
      rcases hmem with ⟨-, -, -, hrecs⟩
      rw [hrecs]
      exact hk

theorem C8_witness :
    IsSingleValue ({ type := "TXT", Domain := "example.com", Text := "only" } : DNSRecord).type = false ∧
    (∃ rec ∈ [({ type := "TXT", Domain := "example.com", Text := "only" } : DNSRecord)],
      rec.SameKey { type := "TXT", Domain := "example.com", Text := "only" } = true) ∧
    (((apiRecsToKeep { type := "TXT", Domain := "example.com", Text := "only" }
        (Except.ok [{ type := "TXT", Domain := "example.com", Text := "only" }])).1 = [] →
      (deleteMulti "example.com" { type := "TXT", Domain := "example.com", Text := "only" }
        (Except.ok [{ type := "TXT", Domain := "example.com", Text := "only" }])).1 =
        [ApiCall.delRecords "example.com" "TXT" ""]) ∧
     ((apiRecsToKeep { type := "TXT", Domain := "example.com", Text := "only" }
        (Except.ok [{ type := "TXT", Domain := "example.com", Text := "only" }])).1 ≠ [] →
      (deleteMulti "example.com" { type := "TXT", Domain := "example.com", Text := "only" }
        (Except.ok [{ type := "TXT", Domain := "example.com", Text := "only" }])).1 =
        [ApiCall.setRecords "example.com" "TXT" ""
          (apiRecsToKeep { type := "TXT", Domain := "example.com", Text := "only" }
            (Except.ok [{ type := "TXT", Domain := "example.com", Text := "only" }])).1]) ∧
     (∀ d t n recs,
      ApiCall.setRecords d t n recs ∈
        (deleteMulti "example.com" { type := "TXT", Domain := "example.com", Text := "only" }
          (Except.ok [{ type := "TXT", Domain := "example.com", Text := "only" }])).1 →
      recs ≠ [])) :=
  ⟨by decide, by decide,
   C8_delete_wholeset_or_replace "example.com"
     { type := "TXT", Domain := "example.com", Text := "only" }
     [{ type := "TXT", Domain := "example.com", Text := "only" }]
     (by decide) (by decide)⟩

/-- For A and AAAA records of equal type and domain, `SameKey` is the
comparison of the two effective addresses, requiring them non-empty
(shared characterization lemma for the A/AAAA branch of `SameKey`). -/
theorem sameKey_addr_eq (r r1 : DNSRecord)
    (ht : r.type = "A" ∨ r.type = "AAAA") (ht1 : r1.type = r.type)
    (hd : r.Domain = r1.Domain) :
    r.SameKey r1 = (r.effAddr == r1.effAddr && r.effAddr != "") := by
  rcases ht with h | h <;>
    simp [DNSRecord.SameKey, DNSRecord.effAddr, h, ht1, hd]

/-- C7: for A records of equal type and domain, `SameKey` is false when
the two records' (effective) addresses are different and non-empty, true
when they are equal and non-empty, and false when both are empty. -/
theorem C7_sameKey_A_addresses (r r1 : DNSRecord)
    (ht : r.type = "A") (ht1 : r1.type = "A") (hd : r.Domain = r1.Domain) :
    (r.effAddr ≠ r1.effAddr → r.effAddr ≠ "" → r1.effAddr ≠ "" →
      r.SameKey r1 = false) ∧
    (r.effAddr = r1.effAddr → r.effAddr ≠ "" → r.SameKey r1 = true) ∧
    (r.effAddr = "" → r1.effAddr = "" → r.SameKey r1 = false) := by
  have hkey := sameKey_addr_eq r r1 (Or.inl ht) (ht1.trans ht.symm) hd
  refine ⟨fun hne _ _ => ?_, fun heq hne => ?_, fun he he1 => ?_⟩
  · rw [hkey]
    simp [hne]
  · rw [hkey]
    simp [heq, heq ▸ hne]
  · rw [hkey]
    simp [he]

theorem C7_witness :
    (({ type := "A", Domain := "h.example.com", IPAddress := "1.2.3.4" } : DNSRecord).type = "A" ∧
     ({ type := "A", Domain := "h.example.com", IPAddress := "5.6.7.8" } : DNSRecord).type = "A" ∧
     ({ type := "A", Domain := "h.example.com", IPAddress := "1.2.3.4" } : DNSRecord).Domain =
       ({ type := "A", Domain := "h.example.com", IPAddress := "5.6.7.8" } : DNSRecord).Domain) ∧
    DNSRecord.SameKey { type := "A", Domain := "h.example.com", IPAddress := "1.2.3.4" }
      { type := "A", Domain := "h.example.com", IPAddress := "5.6.7.8" } = false :=
  ⟨⟨rfl, rfl, rfl⟩,
   (C7_sameKey_A_addresses
      { type := "A", Domain := "h.example.com", IPAddress := "1.2.3.4" }
      { type := "A", Domain := "h.example.com", IPAddress := "5.6.7.8" }
      rfl rfl rfl).1 (by decide) (by decide) (by decide)⟩

/-- C10: for A/AAAA records of equal type and domain, `SameKey` compares
each side's `IPAddress` field but falls back to that side's `Value` field
when its `IPAddress` is empty (`effAddr`), and holds exactly when the two
effective addresses agree and are non-empty; in particular a record with
`IPAddress` set and one carrying the same string only in `Value` are
judged the same record. -/
theorem C10_sameKey_value_fallback (r r1 : DNSRecord)
    (ht : r.type = "A" ∨ r.type = "AAAA") (ht1 : r1.type = r.type)
    (hd : r.Domain = r1.Domain) :
    r.SameKey r1 =
      ((if r.IPAddress == "" then r.Value else r.IPAddress) ==
         (if r1.IPAddress == "" then r1.Value else r1.IPAddress) &&
       (if r.IPAddress == "" then r.Value else r.IPAddress) != "") :=
  sameKey_addr_eq r r1 ht ht1 hd

theorem C10_witness :
    (({ type := "A", Domain := "example.com", IPAddress := "1.2.3.4" } : DNSRecord).type = "A" ∨
     ({ type := "A", Domain := "example.com", IPAddress := "1.2.3.4" } : DNSRecord).type = "AAAA") ∧
    DNSRecord.SameKey { type := "A", Domain := "example.com", IPAddress := "1.2.3.4" }
      { type := "A", Domain := "example.com", Value := "1.2.3.4" } = true := by
  refine ⟨Or.inl rfl, ?_⟩
  rw [C10_sameKey_value_fallback
    { type := "A", Domain := "example.com", IPAddress := "1.2.3.4" }
    { type := "A", Domain := "example.com", Value := "1.2.3.4" }
    (Or.inl rfl) rfl rfl]
  decide

/-- C4: evaluation of the embedded `ImportState` parsing at the claim's
own example input: this code splits on every colon, so the
colon-containing TXT import ID yields five parts and is rejected with the
format diagnostic instead of being parsed with the value preserved. -/
theorem C4_colon_value_rejected :
    (goSplit ':' "example.com:@:TXT:v=spf1 include:example.com ~all").length = 5 ∧
    importStateParts "example.com:@:TXT:v=spf1 include:example.com ~all" =
      .error { summary := "Invalid import ID",
               detail := "Import ID must be in format zone:name:TYPE:value, got: example.com:@:TXT:v=spf1 include:example.com ~all" } :=
  ⟨rfl, rfl⟩

/-- C5: evaluation of the embedded `ImportState` parsing: `"bad"` is
rejected with the format diagnostic, but `"example.com:@:A:"` — an empty
trailing value — splits into exactly four parts and is accepted with an
empty value, not rejected. -/
theorem C5_empty_value_accepted :
    importStateParts "bad" =
      .error { summary := "Invalid import ID",
               detail := "Import ID must be in format zone:name:TYPE:value, got: bad" } ∧
    importStateParts "example.com:@:A:" =
      .ok { zone := "example.com", name := "@", recordType := "A", value := "" } :=
  ⟨rfl, rfl⟩

/-- C6: evaluation of the embedded MX arm of `ImportState`: this code
splits the import value on a space, not a colon, so the claim's example
value `"10:mail.example.com"` sets neither preference nor exchange and no
error of any kind is reported (same for a non-numeric preference), while
the space-separated `"10 mail.example.com"` would set preference 10 and
exchange `"mail.example.com"`. -/
theorem C6_mx_value_space_not_colon :
    importMXValue "10:mail.example.com" = MXImportOutcome.nothingSet ∧
    importMXValue "nope:mail.example.com" = MXImportOutcome.nothingSet ∧
    importMXValue "10 mail.example.com" =
      MXImportOutcome.prefAndExchange 10 "mail.example.com" :=
  ⟨rfl, rfl, rfl⟩
